import Mathlib

/-!
Verification of the cursor-export core in `src/es.rs` (functions `search`,
`scroll`, `scroll_with_retry`, `clear_scroll`, `extract_search_result`)
against its natural-language specification.

Shallow embedding conventions:
* `serde_json::Value` is the inductive `Json`; indexing `value[key]` (which
  yields JSON null on a missing key or a non-object receiver) is `Json.get`.
* Network round-trips are abstract oracle functions (the transport is an
  external library); `Option`/`Except` results model fallible calls.
* `Option::unwrap` on `None` — a Rust panic — is modelled by the explicit
  outcome `ExtractResult.panicked`.
* The `i32` retry budget uses two's-complement wraparound on underflow
  (Rust release-profile semantics; with debug overflow checks the decrement
  would instead abort the process at the minimum value — under neither
  semantics does the loop run forever).
-/

namespace SyncEs

/-- Embedding of `serde_json::Value`. Numbers are modelled as integers; the
claims under study never depend on non-integral numbers. -/
inductive Json where
  | null : Json
  | bool : Bool → Json
  | num : Int → Json
  | str : String → Json
  | arr : List Json → Json
  | obj : List (String × Json) → Json

/-- Lookup of a key in a JSON object's field list (first match). -/
def getField : List (String × Json) → String → Json
  | [], _ => Json.null
  | (k, v) :: rest, key => if k = key then v else getField rest key

/-- Embedding of `serde_json` indexing `value[key]`: JSON null when the key is
missing or the receiver is not an object. -/
def Json.get : Json → String → Json
  | Json.obj fields, key => getField fields key
  | _, _ => Json.null

/-- Embedding of `Value::is_object`. -/
def Json.isObject : Json → Bool
  | Json.obj _ => true
  | _ => false

/-- Embedding of `Value::as_str`. -/
def Json.asStr : Json → Option String
  | Json.str s => some s
  | _ => none

/-- Embedding of `Value::as_array` (followed by `to_vec`, a clone). -/
def Json.asArray : Json → Option (List Json)
  | Json.arr xs => some xs
  | _ => none

/-- Embedding of `Value::as_u64`: defined exactly on non-negative integers
below 2^64. -/
def Json.asU64 : Json → Option Nat
  | Json.num n => if 0 ≤ n ∧ n < 2 ^ 64 then some n.toNat else none
  | _ => none

/-- Outcome of `extract_search_result`. `panicked` stands for the Rust panic
raised by `Option::unwrap` on `None`. -/
inductive ExtractResult where
  | ok (scroll_id : String) (hits : List Json) (total : Nat)
  | backendError (payload : Json)
  | panicked

/-- Embedding of `Es::extract_search_result` (src/es.rs lines 96-107):
an `error` field that is a JSON object yields an error return; then
`_scroll_id` and `hits.hits` are extracted with `unwrap` (panic on failure);
`hits.total.value` is extracted with `as_u64().unwrap_or(0)`. -/
def extract_search_result (response_body : Json) : ExtractResult :=
  if (response_body.get "error").isObject then
    ExtractResult.backendError (response_body.get "error")
  else
    match (response_body.get "_scroll_id").asStr with
    | none => ExtractResult.panicked
    | some scroll_id =>
      match ((response_body.get "hits").get "hits").asArray with
      | none => ExtractResult.panicked
      | some hits =>
        ExtractResult.ok scroll_id hits
          ((((response_body.get "hits").get "total").get "value").asU64.getD 0)

/-- Result of one whole `search`/`scroll` call, from the caller's view.
`parseError` is the `serde_json::from_str` failure propagated by `?`;
`transportError` is a failed `send`/body-decode propagated by `?`. -/
inductive CallResult where
  | ok (scroll_id : String) (hits : List Json) (total : Nat)
  | parseError
  | transportError
  | backendError (payload : Json)
  | panicked

/-- Lift the shared extraction outcome into the per-call result. -/
def liftExtract : ExtractResult → CallResult
  | ExtractResult.ok s h t => CallResult.ok s h t
  | ExtractResult.backendError p => CallResult.backendError p
  | ExtractResult.panicked => CallResult.panicked

/-- Embedding of `Es::search` (src/es.rs lines 37-51). `parseQuery` abstracts
`serde_json::from_str` over the stored query string; `sendSearch` abstracts
the network round-trip plus JSON body decoding (`none` = transport failure).
The first component counts network requests issued during the call. -/
def search (parseQuery : String → Option Json) (sendSearch : Json → Option Json)
    (query : String) : Nat × CallResult :=
  match parseQuery query with
  | none => (0, CallResult.parseError)
  | some parsed =>
    match sendSearch parsed with
    | none => (1, CallResult.transportError)
    | some body => (1, liftExtract (extract_search_result body))

/-- Embedding of `Es::scroll` (src/es.rs lines 69-79), the single continuation
attempt: one network round-trip with the given cursor token, then the shared
extraction. The first component counts network requests issued. -/
def scroll (sendScroll : String → Option Json) (scroll_id : String) :
    Nat × CallResult :=
  match sendScroll scroll_id with
  | none => (1, CallResult.transportError)
  | some body => (1, liftExtract (extract_search_result body))

/-- Embedding of `StatusCode::is_success` (2xx). -/
def statusIsSuccess (code : Nat) : Bool := 200 ≤ code && code < 300

/-- Failure modes of `clear_scroll`. -/
inductive ClearError where
  | transport
  | failedToClear

/-- Embedding of `Es::clear_scroll` (src/es.rs lines 81-94). `sendClear`
abstracts the single release round-trip, returning the HTTP status code
(`none` = transport failure propagated by `?`). The first component counts
release requests issued: the source has no loop, so exactly one per call. -/
def clear_scroll (sendClear : String → Option Nat) (scroll_id : String) :
    Nat × Except ClearError Unit :=
  match sendClear scroll_id with
  | none => (1, Except.error ClearError.transport)
  | some code =>
    (1, if statusIsSuccess code then Except.ok ()
        else Except.error ClearError.failedToClear)

/-- The log of attempts `(attempt index, cursor token used)` for `n`
consecutive attempts starting at index `k`, all with the same token. -/
def attemptLog (sid : String) : Nat → Nat → List (Nat × String)
  | _, 0 => []
  | k, n + 1 => (k, sid) :: attemptLog sid (k + 1) n

/-- Two's-complement unsigned representation of an `i32` value, as used by the
wrapping decrement of the retry budget (4294967296 = 2^32). -/
def i32ToU (n : Int) : Nat := (n % 4294967296).toNat

/-- Loop body of `Es::scroll_with_retry` (src/es.rs lines 53-67), shallowly
embedded with fuel. `scrollOnce k sid` is the outcome of the `self.scroll`
call on attempt number `k` (the token argument `sid` is passed exactly as the
source passes `scroll_id.clone()`); `retries` is the unsigned two's-complement
representation of the `i32` budget, decremented only when nonzero, so the
wrapping decrement coincides with `Nat` subtraction. The result pairs the
attempt log with `some` of the returned value, or `none` when the fuel ran
out before the loop returned. -/
def scrollRetryAux {E A : Type} (scrollOnce : Nat → String → Except E A)
    (sid : String) : Nat → Nat → Nat → List (Nat × String) × Option (Except E A)
  | _, _, 0 => ([], none)
  | k, retries, fuel + 1 =>
    match scrollOnce k sid with
    | Except.ok a => ([(k, sid)], some (Except.ok a))
    | Except.error e =>
      if retries = 0 then ([(k, sid)], some (Except.error e))
      else
        let r := scrollRetryAux scrollOnce sid (k + 1) (retries - 1) fuel
        ((k, sid) :: r.1, r.2)

/-- Embedding of `Es::scroll_with_retry`: run the retry loop from attempt 0
with the `i32` budget `max_retries`. -/
def scroll_with_retry {E A : Type} (scrollOnce : Nat → String → Except E A)
    (scroll_id : String) (max_retries : Int) (fuel : Nat) :
    List (Nat × String) × Option (Except E A) :=
  scrollRetryAux scrollOnce scroll_id 0 (i32ToU max_retries) fuel

/-! ### Helper lemmas -/

theorem attemptLog_length (sid : String) :
    ∀ (k n : Nat), (attemptLog sid k n).length = n := by
  intro k n
  induction n generalizing k with
  | zero => rfl
  | succ n ih => simp [attemptLog, ih]

theorem attemptLog_token (sid : String) :
    ∀ (k n : Nat), ∀ p ∈ attemptLog sid k n, p.2 = sid := by
  intro k n
  induction n generalizing k with
  | zero => intro p hp; simp [attemptLog] at hp
  | succ n ih =>
    intro p hp
    simp only [attemptLog, List.mem_cons] at hp
    rcases hp with h | h
    · rw [h]
    · exact ih (k + 1) p h

theorem scrollRetryAux_allFail {E A : Type} (scrollOnce : Nat → String → Except E A)
    (sid : String) (err : Nat → E)
    (hfail : ∀ j, scrollOnce j sid = Except.error (err j)) :
    ∀ (retries k fuel : Nat), retries < fuel →
      scrollRetryAux scrollOnce sid k retries fuel
        = (attemptLog sid k (retries + 1), some (Except.error (err (k + retries)))) := by
  intro retries
  induction retries with
  | zero =>
    intro k fuel hf
    match fuel, hf with
    | f + 1, _ => simp [scrollRetryAux, hfail k, attemptLog]
  | succ r ih =>
    intro k fuel hf
    match fuel, hf with
    | f + 1, hf =>
      have hrf : r < f := by omega
      have hk : k + 1 + r = k + (r + 1) := by omega
      simp only [scrollRetryAux, hfail k, Nat.succ_ne_zero, if_false, Nat.add_sub_cancel,
        ih (k + 1) f hrf, hk, attemptLog]

theorem scrollRetryAux_failThenOk {E A : Type} (scrollOnce : Nat → String → Except E A)
    (sid : String) (err : Nat → E) (a : A) :
    ∀ (K retries k fuel : Nat), K < fuel → K ≤ retries →
      (∀ j, j < K → scrollOnce (k + j) sid = Except.error (err (k + j))) →
      scrollOnce (k + K) sid = Except.ok a →
      scrollRetryAux scrollOnce sid k retries fuel
        = (attemptLog sid k (K + 1), some (Except.ok a)) := by
  intro K
  induction K with
  | zero =>
    intro retries k fuel hf _ _ hok
    match fuel, hf with
    | f + 1, _ =>
      rw [Nat.add_zero] at hok
      simp [scrollRetryAux, hok, attemptLog]
  | succ K ih =>
    intro retries k fuel hf hKr hfails hok
    match fuel, hf with
    | f + 1, hf =>
      have h0 : scrollOnce k sid = Except.error (err k) := by
        have h := hfails 0 (Nat.succ_pos K)
        rw [Nat.add_zero] at h
        exact h
      have hr0 : retries ≠ 0 := by omega
      have hfails' : ∀ j, j < K →
          scrollOnce (k + 1 + j) sid = Except.error (err (k + 1 + j)) := by
        intro j hj
        have h := hfails (j + 1) (by omega)
        have e : k + (j + 1) = k + 1 + j := by omega
        rw [e] at h
        exact h
      have hok' : scrollOnce (k + 1 + K) sid = Except.ok a := by
        have e : k + (K + 1) = k + 1 + K := by omega
        rw [e] at hok
        exact hok
      simp only [scrollRetryAux, h0, hr0, if_neg, ite_false,
        ih (retries - 1) (k + 1) f (by omega) (by omega) hfails' hok', attemptLog]

theorem i32ToU_of_nonneg (R : Int) (h0 : 0 ≤ R) (h1 : R < 2147483648) :
    i32ToU R = R.toNat := by
  unfold i32ToU
  omega

theorem i32ToU_neg_lower (R : Int) (hlo : -2147483648 ≤ R) (hneg : R < 0) :
    2147483648 ≤ i32ToU R := by
  unfold i32ToU
  omega

/-! ### Claim theorems -/

/-- Claim C1 (code bug): on a response with no error object whose cursor-token
field `_scroll_id` is absent, or whose `hits.hits` field is absent, the source
panics (`Option::unwrap` on `None`) instead of returning the recoverable
protocol-violation error the spec requires. The first input lacks
`_scroll_id`; the second has it but lacks the hits array. -/
theorem extract_missing_fields_panics :
    extract_search_result (Json.obj [("hits", Json.obj [("hits", Json.arr [])])])
      = ExtractResult.panicked
    ∧ extract_search_result (Json.obj [("_scroll_id", Json.str "s")])
      = ExtractResult.panicked :=
  ⟨rfl, rfl⟩

/-- Claim C2 (amended): a response whose `error` field is a JSON object yields
a backend-error failure regardless of the remaining fields, and no cursor
token is extracted from it. (The original claim — any non-empty `error` of
any JSON shape — fails: see the counterexample with a string-valued error.) -/
theorem extract_error_object_backendError (body : Json)
    (h : (body.get "error").isObject = true) :
    extract_search_result body = ExtractResult.backendError (body.get "error") := by
  simp [extract_search_result, h]

theorem extract_error_object_backendError_witness :
    extract_search_result (Json.obj [("error", Json.obj [("type", Json.str "x")]),
        ("_scroll_id", Json.str "s")])
      = ExtractResult.backendError (Json.obj [("type", Json.str "x")]) :=
  extract_error_object_backendError
    (Json.obj [("error", Json.obj [("type", Json.str "x")]), ("_scroll_id", Json.str "s")])
    rfl

/-- Claim C2 counterexample: a response whose `error` field is present and
non-empty but a string (not an object) is NOT reported as a backend error;
extraction proceeds and succeeds, contradicting the claim as stated. -/
theorem extract_error_string_undetected :
    extract_search_result (Json.obj [("error", Json.str "x"),
        ("_scroll_id", Json.str "s"), ("hits", Json.obj [("hits", Json.arr [])])])
      = ExtractResult.ok "s" [] 0 :=
  rfl

/-- Claim C6 (amended): with no error object, a string cursor token and a hits
array, the returned total is 0 whenever `hits.total.value` fails `as_u64` —
both when the field is absent and when it is present but malformed; a
malformed total does not make extraction fail. (The original claim — present
but malformed totals are a failure — fails: see the counterexample.) -/
theorem extract_malformed_total_defaults (body : Json) (sid : String) (hits : List Json)
    (herr : (body.get "error").isObject = false)
    (hsid : (body.get "_scroll_id").asStr = some sid)
    (hhits : ((body.get "hits").get "hits").asArray = some hits)
    (htot : (((body.get "hits").get "total").get "value").asU64 = none) :
    extract_search_result body = ExtractResult.ok sid hits 0 := by
  simp [extract_search_result, herr, hsid, hhits, htot]

theorem extract_malformed_total_defaults_witness :
    extract_search_result (Json.obj [("_scroll_id", Json.str "s"),
        ("hits", Json.obj [("hits", Json.arr []),
          ("total", Json.obj [("value", Json.str "bad")])])])
      = ExtractResult.ok "s" [] 0 :=
  extract_malformed_total_defaults
    (Json.obj [("_scroll_id", Json.str "s"),
      ("hits", Json.obj [("hits", Json.arr []),
        ("total", Json.obj [("value", Json.str "bad")])])])
    "s" [] rfl rfl rfl rfl

/-- Claim C6 counterexample: `hits.total.value` present but malformed (a
string) — extraction succeeds with the defaulted total 0 instead of failing
as the claim requires. -/
theorem extract_malformed_total_no_failure :
    extract_search_result (Json.obj [("_scroll_id", Json.str "s"),
        ("hits", Json.obj [("hits", Json.arr [Json.num 1]),
          ("total", Json.obj [("value", Json.str "bad")])])])
      = ExtractResult.ok "s" [Json.num 1] 0 :=
  rfl

/-- Claim C7 (amended): whenever `extract_search_result` returns successfully,
the returned cursor token is exactly the string value of the response's
`_scroll_id` field — the field must be present and a string — but it may be
the empty string: non-emptiness is not checked. (The original claim — the
token is always non-empty — fails: see the counterexample.) -/
theorem extract_ok_token_matches_field (body : Json) (sid : String)
    (hits : List Json) (total : Nat)
    (h : extract_search_result body = ExtractResult.ok sid hits total) :
    (body.get "_scroll_id").asStr = some sid := by
  cases he : (body.get "error").isObject with
  | true => simp [extract_search_result, he] at h
  | false =>
    cases hs : (body.get "_scroll_id").asStr with
    | none => simp [extract_search_result, he, hs] at h
    | some s =>
      cases ha : ((body.get "hits").get "hits").asArray with
      | none => simp [extract_search_result, he, hs, ha] at h
      | some xs =>
        simp only [extract_search_result, he, Bool.false_eq_true, if_false, hs, ha,
          ExtractResult.ok.injEq] at h
        rw [h.1]

theorem extract_ok_token_matches_field_witness :
    (Json.get (Json.obj [("_scroll_id", Json.str "tok"),
        ("hits", Json.obj [("hits", Json.arr [])])]) "_scroll_id").asStr
      = some "tok" :=
  extract_ok_token_matches_field
    (Json.obj [("_scroll_id", Json.str "tok"), ("hits", Json.obj [("hits", Json.arr [])])])
    "tok" [] 0 rfl

/-- Claim C7 counterexample: a response with an empty-string `_scroll_id` is
accepted, and the extraction succeeds with an EMPTY cursor token,
contradicting the claim that a successful return carries a non-empty token. -/
theorem extract_empty_token_ok :
    extract_search_result (Json.obj [("_scroll_id", Json.str ""),
        ("hits", Json.obj [("hits", Json.arr [])])])
      = ExtractResult.ok "" [] 0 :=
  rfl

/-- Claim C9: result extraction is deterministic — equal raw response values
yield equal results (the function is pure; the source's only side effect is
logging, which does not affect the returned value). -/
theorem extract_deterministic (r1 r2 : Json) (h : r1 = r2) :
    extract_search_result r1 = extract_search_result r2 := by
  rw [h]

theorem extract_deterministic_witness :
    extract_search_result (Json.obj [("_scroll_id", Json.str "s")])
      = extract_search_result (Json.obj [("_scroll_id", Json.str "s")]) :=
  extract_deterministic (Json.obj [("_scroll_id", Json.str "s")])
    (Json.obj [("_scroll_id", Json.str "s")]) rfl

/-- Claim C3: for every cursor token and every i32 `max_retries` R ≥ 0, if
every single continuation attempt fails, `scroll_with_retry` performs exactly
R+1 attempts and returns the error of the last attempt unchanged. The fuel
only needs to exceed R, so the result is stable for all sufficient fuel. -/
theorem scroll_with_retry_allFail_attempts {E A : Type}
    (scrollOnce : Nat → String → Except E A) (sid : String) (err : Nat → E)
    (R : Int) (fuel : Nat)
    (h0 : 0 ≤ R) (h1 : R < 2147483648) (hfuel : R.toNat < fuel)
    (hfail : ∀ j, scrollOnce j sid = Except.error (err j)) :
    scroll_with_retry scrollOnce sid R fuel
      = (attemptLog sid 0 (R.toNat + 1), some (Except.error (err R.toNat)))
    ∧ (attemptLog sid 0 (R.toNat + 1)).length = R.toNat + 1 := by
  constructor
  · unfold scroll_with_retry
    rw [i32ToU_of_nonneg R h0 h1]
    have h := scrollRetryAux_allFail scrollOnce sid err hfail R.toNat 0 fuel hfuel
    rw [Nat.zero_add] at h
    exact h
  · exact attemptLog_length sid 0 (R.toNat + 1)

theorem scroll_with_retry_allFail_attempts_witness :
    scroll_with_retry (fun j _ => (Except.error j : Except Nat Unit)) "tok" 2 3
      = (attemptLog "tok" 0 3, some (Except.error 2))
    ∧ (attemptLog "tok" 0 3).length = 3 :=
  scroll_with_retry_allFail_attempts (fun j _ => Except.error j) "tok" (fun j => j)
    2 3 (by decide) (by decide) (by decide) (fun j => rfl)

/-- Claim C4: for every i32 `max_retries` R ≥ 0 and K ≤ R, if the continuation
fails on the first K attempts and succeeds on attempt K+1, `scroll_with_retry`
returns that success after exactly K+1 attempts, and every attempt in the log
was issued with the original cursor token. -/
theorem scroll_with_retry_failThenOk {E A : Type}
    (scrollOnce : Nat → String → Except E A) (sid : String) (err : Nat → E) (a : A)
    (K : Nat) (R : Int) (fuel : Nat)
    (h0 : 0 ≤ R) (h1 : R < 2147483648) (hKR : (K : Int) ≤ R) (hfuel : K < fuel)
    (hfails : ∀ j, j < K → scrollOnce j sid = Except.error (err j))
    (hok : scrollOnce K sid = Except.ok a) :
    scroll_with_retry scrollOnce sid R fuel
      = (attemptLog sid 0 (K + 1), some (Except.ok a))
    ∧ (attemptLog sid 0 (K + 1)).length = K + 1
    ∧ ∀ p ∈ attemptLog sid 0 (K + 1), p.2 = sid := by
  refine ⟨?_, attemptLog_length sid 0 (K + 1), attemptLog_token sid 0 (K + 1)⟩
  unfold scroll_with_retry
  rw [i32ToU_of_nonneg R h0 h1]
  have hfails' : ∀ j, j < K → scrollOnce (0 + j) sid = Except.error (err (0 + j)) := by
    intro j hj
    rw [Nat.zero_add]
    exact hfails j hj
  have hok' : scrollOnce (0 + K) sid = Except.ok a := by
    rw [Nat.zero_add]
    exact hok
  exact scrollRetryAux_failThenOk scrollOnce sid err a K R.toNat 0 fuel hfuel
    (by omega) hfails' hok'

theorem scroll_with_retry_failThenOk_witness :
    scroll_with_retry
        (fun j _ => if j = 0 then (Except.error 0 : Except Nat Bool) else Except.ok true)
        "tok" 2 3
      = (attemptLog "tok" 0 2, some (Except.ok true))
    ∧ (attemptLog "tok" 0 2).length = 2
    ∧ ∀ p ∈ attemptLog "tok" 0 2, p.2 = "tok" :=
  scroll_with_retry_failThenOk
    (fun j _ => if j = 0 then (Except.error 0 : Except Nat Bool) else Except.ok true)
    "tok" (fun _ => 0) true 1 2 3 (by decide) (by decide) (by decide) (by decide)
    (by intro j hj; have hj0 : j = 0 := by omega
        rw [hj0]; rfl)
    rfl

/-- Claim C5: when the stored query string fails to parse as JSON, `search`
returns the parse failure and issues zero network requests. -/
theorem search_malformed_query_no_network
    (parseQuery : String → Option Json) (sendSearch : Json → Option Json)
    (query : String) (h : parseQuery query = none) :
    search parseQuery sendSearch query = (0, CallResult.parseError) := by
  simp [search, h]

theorem search_malformed_query_no_network_witness :
    search (fun _ => none) (fun j => some j) "\x7bnot json" = (0, CallResult.parseError) :=
  search_malformed_query_no_network (fun _ => none) (fun j => some j) "\x7bnot json" rfl

/-- Claim C8: `clear_scroll` issues exactly one release request per call (the
source has no retry loop), and — whenever the backend delivers a status code —
it returns success exactly when that status code is a 2xx success code. -/
theorem clear_scroll_single_request_status
    (sendClear : String → Option Nat) (sid : String) :
    (clear_scroll sendClear sid).1 = 1
    ∧ (∀ code, sendClear sid = some code →
        ((clear_scroll sendClear sid).2 = Except.ok () ↔ statusIsSuccess code = true)) := by
  constructor
  · unfold clear_scroll
    cases sendClear sid with
    | none => rfl
    | some code => rfl
  · intro code hc
    unfold clear_scroll
    rw [hc]
    cases hs : statusIsSuccess code <;> simp [hs]

theorem clear_scroll_single_request_status_witness :
    (clear_scroll (fun _ => some 404) "t").1 = 1
    ∧ ((clear_scroll (fun _ => some 404) "t").2 = Except.ok ()
        ↔ statusIsSuccess 404 = true) :=
  ⟨(clear_scroll_single_request_status (fun _ => some 404) "t").1,
   (clear_scroll_single_request_status (fun _ => some 404) "t").2 404 rfl⟩

/-- Claim C10 (amended): `scroll_with_retry` terminates for every i32
`max_retries`: with a persistently failing continuation it returns the last
error after exactly (max_retries mod 2^32) + 1 attempts. For max_retries ≥ 0
that is max_retries + 1 attempts; for negative max_retries the i32 budget,
compared for equality with zero and decremented with two's-complement
wraparound, acts as a budget of at least 2^31 retries — astronomically large
but finite, so the loop does not retry without bound. -/
theorem scroll_with_retry_wrap_bound {E A : Type}
    (scrollOnce : Nat → String → Except E A) (sid : String) (err : Nat → E)
    (R : Int) (hlo : -2147483648 ≤ R) (hhi : R < 2147483648)
    (hfail : ∀ j, scrollOnce j sid = Except.error (err j)) :
    (scroll_with_retry scrollOnce sid R (i32ToU R + 1)).2
      = some (Except.error (err (i32ToU R)))
    ∧ (0 ≤ R → i32ToU R = R.toNat)
    ∧ (R < 0 → 2147483648 ≤ i32ToU R) := by
  refine ⟨?_, fun h0 => i32ToU_of_nonneg R h0 hhi,
    fun hneg => i32ToU_neg_lower R hlo hneg⟩
  unfold scroll_with_retry
  have h := scrollRetryAux_allFail scrollOnce sid err hfail (i32ToU R) 0
    (i32ToU R + 1) (Nat.lt_succ_self _)
  rw [h, Nat.zero_add]

theorem scroll_with_retry_wrap_bound_witness :
    (scroll_with_retry (fun j _ => (Except.error j : Except Nat Unit)) "s" (-1)
        (i32ToU (-1) + 1)).2
      = some (Except.error (i32ToU (-1)))
    ∧ (0 ≤ (-1 : Int) → i32ToU (-1) = Int.toNat (-1))
    ∧ ((-1 : Int) < 0 → 2147483648 ≤ i32ToU (-1)) :=
  scroll_with_retry_wrap_bound (fun j _ => Except.error j) "s" (fun j => j) (-1)
    (by decide) (by decide) (fun j => rfl)

/-- Claim C10 counterexample: with `max_retries = -1` and a continuation that
always fails, `scroll_with_retry` DOES return — after 2^32 attempts, the
wrapped budget reaches zero and the last error (from attempt index
4294967295) is surfaced — so a negative budget does not retry without bound
forever as the claim states. -/
theorem scroll_with_retry_neg_returns :
    (scroll_with_retry (fun j _ => (Except.error j : Except Nat Unit)) "s" (-1)
        4294967296).2
      = some (Except.error 4294967295) := by
  have e : i32ToU (-1) = 4294967295 := by
    unfold i32ToU
    omega
  unfold scroll_with_retry
  rw [e]
  have h := scrollRetryAux_allFail (fun j (_ : String) => (Except.error j : Except Nat Unit))
    "s" (fun j => j) (fun j => rfl) 4294967295 0 4294967296 (by omega)
  rw [h, Nat.zero_add]

end SyncEs
